import Mathlib

/-!
Shallow embedding of the activity-intelligence engine of
`src/src-tauri/src/intelligence.rs` (SQLite-backed Observe → Model → Detect →
Suggest → Escalate core), together with theorems settling the frozen claims.

Modelling conventions, used throughout:

* The SQLite database is a `DB` structure holding the five tables as lists of
  row structures, in rowid order.  `INSERT` appends at the end of the list;
  `UPDATE` is a `List.map`; `DELETE` is a `List.filter`.
* Time.  The Rust code stores times as strings and lets SQLite compare them
  lexicographically.  Two string shapes occur: full instants
  `YYYY-MM-DDTHH:MM:SSZ` (from `now_iso` / the `internalDate` conversion) and
  date-only values `YYYY-MM-DD` (from `days_ago` / `days_ahead`).  For years
  1970-9999 the lexicographic order of those strings is exactly: compare the
  underlying instants for two full instants, compare the days for two dates,
  and for a date `d` against an instant `s`: `d < s` iff `day(s) ≥ d` (a date
  string is a proper prefix of any instant string of the same day), `s < d`
  iff `day(s) < d`.  `TimeVal` carries the shape (`date` holds days since the
  Unix epoch, `instant` seconds since the Unix epoch) and `TimeVal.ltb`
  implements that string order, so no string rendering is needed.
* `days_ago(n)` / `days_ahead(n)` are the Rust helpers that truncate
  `now ∓ n·86400` seconds to a day count (`saturating_sub` becomes `Nat`
  truncated subtraction).
* SQL `NULL` becomes `Option`; three-valued logic is resolved at each
  comparison site exactly as SQLite does (`x = NULL` never matches, a `WHERE`
  keeps only rows whose condition is true).
* Presentation-only columns that no query ever reads back (`title`,
  `description`, `context` of a suggestion, and the contact `name` joined into
  detector result rows purely for display) are omitted from the row
  structures; every column that any query reads is kept.
* `GROUP BY` keeps group keys in first-appearance order; `ORDER BY ... LIMIT`
  becomes an insertion sort by the order key followed by `List.take` (SQLite
  leaves the order of ties unspecified; no claim depends on tie order).
-/

/-- A stored time string: either a date-only value `YYYY-MM-DD` (days since
the Unix epoch) or a full instant `YYYY-MM-DDTHH:MM:SSZ` (seconds since the
Unix epoch). -/
inductive TimeVal where
  | date (d : Nat)
  | instant (s : Nat)
deriving DecidableEq, Repr

/-- Day number of a stored time value. -/
def TimeVal.dayOf : TimeVal → Nat
  | .date d => d
  | .instant s => s / 86400

/-- Seconds since the Unix epoch of a stored time value (a date-only value
reads as midnight, matching `JULIANDAY` on a date-only string). -/
def TimeVal.secs : TimeVal → Nat
  | .date d => d * 86400
  | .instant s => s

/-- SQLite string comparison `a < b` on two stored time values (see the file
header for why this is exactly the lexicographic order of the strings). -/
def TimeVal.ltb : TimeVal → TimeVal → Bool
  | .date a, .date b => a < b
  | .instant a, .instant b => a < b
  | .date a, .instant b => a ≤ b / 86400
  | .instant a, .date b => a / 86400 < b

/-- The date produced by `days_ago(n)` at instant `now`, as a day number
(`saturating_sub`, then truncation to a day). -/
def daysAgoDay (now n : Nat) : Nat := (now - n * 86400) / 86400

/-- The date produced by `days_ahead(n)` at instant `now`, as a day number. -/
def daysAheadDay (now n : Nat) : Nat := (now + n * 86400) / 86400

/-- Row of the `contacts` table. -/
structure ContactRow where
  email : String
  name : Option String
  first_seen : TimeVal
  last_seen : TimeVal
  interaction_count : Int
  avg_response_time_mins : Option ℚ
  preferred_channel : Option String
  tags : Option String
  created_at : TimeVal
  updated_at : TimeVal
deriving DecidableEq, Repr

/-- Row of the `calendar_events` table (`attendees` is stored as a JSON array
of emails; `json_each` over it yields exactly the list elements). -/
structure CalendarRow where
  event_id : String
  summary : Option String
  start_time : TimeVal
  end_time : TimeVal
  attendees : List String
  location : Option String
  is_recurring : Bool
  organizer_email : Option String
  observed_at : TimeVal
deriving DecidableEq, Repr

/-- Row of the `email_observations` table. -/
structure EmailObs where
  thread_id : String
  message_id : Option String
  from_email : String
  to_emails : List String
  subject : Option String
  timestamp : TimeVal
  is_inbound : Option Bool
  replied : Bool
  reply_time_mins : Option ℚ
  labels : Option String
  observed_at : TimeVal
deriving DecidableEq, Repr

/-- Row of the `suggestions` table.  The same structure doubles as the
candidate value a detector produces (`id = 0`, as in the Rust `Suggestion`
struct).  Presentation-only columns (`title`, `description`, `context`) are
omitted; no query reads them. -/
structure SuggestionRow where
  id : Int
  stype : String
  contact_email : Option String
  confidence : ℚ
  status : String
  created_at : TimeVal
  acted_at : Option TimeVal
  expires_at : Option TimeVal
deriving DecidableEq, Repr

/-- Row of the `autonomy_settings` table. -/
structure AutonomyRow where
  activity_type : String
  level : String
  promoted_at : Option TimeVal
  total_accepted : Int
  total_dismissed : Int
deriving DecidableEq, Repr

/-- The whole store, tables in rowid order. -/
structure DB where
  contacts : List ContactRow
  calendar : List CalendarRow
  emails : List EmailObs
  suggestions : List SuggestionRow
  autonomy : List AutonomyRow
deriving DecidableEq, Repr

/-- The four rows seeded into `autonomy_settings` by `init_db` on a fresh
database (`INSERT OR IGNORE ... VALUES ('scheduling','suggest'), ...`). -/
def seedAutonomy : List AutonomyRow :=
  [ ⟨"scheduling", "suggest", none, 0, 0⟩
  , ⟨"email_reply", "observe", none, 0, 0⟩
  , ⟨"follow_up", "suggest", none, 0, 0⟩
  , ⟨"outreach", "observe", none, 0, 0⟩ ]

/-- The freshly initialised database: empty tables plus the seeded autonomy
settings. -/
def initDB : DB := ⟨[], [], [], [], seedAutonomy⟩

/-- The suggestion type names the four detectors emit. -/
def detectorTypes : List String := ["reachout", "respond", "catch_up", "schedule_meeting"]

/-- Level lookup used by `generate_suggestions`:
`SELECT level FROM autonomy_settings WHERE activity_type = ?1`, defaulting to
`"suggest"` when no row matches (`unwrap_or_else`). -/
def autonomyLevel (db : DB) (t : String) : String :=
  match db.autonomy.find? (fun a => a.activity_type == t) with
  | some a => a.level
  | none => "suggest"

/-- The dedup subquery shared by all four detectors:
`?1 IN (SELECT COALESCE(contact_email, '') FROM suggestions WHERE type = ?2
AND status = 'pending')`. -/
def hasPendingFor (db : DB) (t e : String) : Bool :=
  db.suggestions.any (fun s =>
    s.stype == t && s.status == "pending" && s.contact_email.getD "" == e)

/-- `upsert_contact`: `INSERT ... ON CONFLICT(email) DO UPDATE SET
name = COALESCE(excluded.name, contacts.name), last_seen = excluded.last_seen,
interaction_count = contacts.interaction_count + 1, preferred_channel = CASE
WHEN contacts.interaction_count > 5 THEN contacts.preferred_channel ELSE
excluded.preferred_channel END, updated_at = excluded.updated_at`. -/
def upsertContact (db : DB) (email : String) (name : Option String)
    (channel : String) (now : Nat) : DB :=
  if db.contacts.any (fun c => c.email == email) then
    { db with contacts := db.contacts.map (fun c =>
        if c.email == email then
          { c with
            name := match name with | some n => some n | none => c.name
            last_seen := .instant now
            interaction_count := c.interaction_count + 1
            preferred_channel :=
              if c.interaction_count > 5 then c.preferred_channel else some channel
            updated_at := .instant now }
        else c) }
  else
    { db with contacts := db.contacts ++
        [{ email := email, name := name, first_seen := .instant now
         , last_seen := .instant now, interaction_count := 1
         , avg_response_time_mins := none, preferred_channel := some channel
         , tags := none, created_at := .instant now
         , updated_at := .instant now }] }

/-- A qualifying reply witness in `detect_reply_patterns`: an outbound row of
the same thread strictly later than `e`
(`e2.thread_id = e.thread_id AND e2.is_inbound = 0 AND
e2.timestamp > e.timestamp`; a `NULL` `is_inbound` never matches `= 0`). -/
def replyWitness (e e2 : EmailObs) : Bool :=
  e2.thread_id == e.thread_id && e2.is_inbound == some false
    && TimeVal.ltb e.timestamp e2.timestamp

/-- First statement of `detect_reply_patterns`:
`UPDATE email_observations SET replied = 1 WHERE is_inbound = 1 AND
replied = 0 AND EXISTS (...)`, applied to a single row (the subquery only
reads columns this statement does not write). -/
def markReplied (tbl : List EmailObs) (e : EmailObs) : EmailObs :=
  if e.is_inbound == some true && e.replied == false && tbl.any (replyWitness e) then
    { e with replied := true }
  else e

/-- Minimum of a list of rationals, `none` on the empty list (the SQL `MIN`
aggregate, which yields `NULL` over an empty set). -/
def listMinQ : List ℚ → Option ℚ
  | [] => none
  | x :: xs =>
    match listMinQ xs with
    | none => some x
    | some m => some (if x ≤ m then x else m)

/-- Reply latency in minutes from `e` to `e2`:
`(JULIANDAY(e2.timestamp) - JULIANDAY(e.timestamp)) * 1440`. -/
def replyDelta (e e2 : EmailObs) : ℚ :=
  ((e2.timestamp.secs : ℚ) - (e.timestamp.secs : ℚ)) / 60

/-- Second statement of `detect_reply_patterns`:
`UPDATE email_observations SET reply_time_mins = (SELECT MIN(...) ...)
WHERE is_inbound = 1 AND replied = 1 AND reply_time_mins IS NULL`,
applied to a single row of the table left by the first statement. -/
def setLatency (tbl : List EmailObs) (e : EmailObs) : EmailObs :=
  if e.is_inbound == some true && e.replied == true && e.reply_time_mins == none then
    { e with reply_time_mins := listMinQ ((tbl.filter (replyWitness e)).map (replyDelta e)) }
  else e

/-- The email-table part of `detect_reply_patterns`: the two sequential
`UPDATE` statements. -/
def detectReplyEmails (tbl : List EmailObs) : List EmailObs :=
  let t1 := tbl.map (markReplied tbl)
  t1.map (setLatency t1)

/-- Average used by the third statement of `detect_reply_patterns`:
`SELECT AVG(reply_time_mins) FROM email_observations WHERE from_email = ?1 AND
is_inbound = 1 AND replied = 1 AND reply_time_mins IS NOT NULL AND
reply_time_mins > 0` (`NULL` when the set is empty). -/
def avgReplyOf (tbl : List EmailObs) (email : String) : Option ℚ :=
  let vals := tbl.filterMap (fun o =>
    match o.reply_time_mins with
    | some m =>
      if o.from_email == email && o.is_inbound == some true && o.replied
          && decide (0 < m) then some m else none
    | none => none)
  if vals.isEmpty then none else some (vals.sum / (vals.length : ℚ))

/-- Third statement of `detect_reply_patterns`: recompute
`avg_response_time_mins` for every contact that appears as
`from_email` of an inbound, replied row with a recorded latency. -/
def updateContactAverages (db : DB) : DB :=
  { db with contacts := db.contacts.map (fun c =>
      if db.emails.any (fun o =>
          o.from_email == c.email && o.is_inbound == some true && o.replied
            && o.reply_time_mins.isSome) then
        { c with avg_response_time_mins := avgReplyOf db.emails c.email }
      else c) }

/-- `detect_reply_patterns`: the three sequential statements of the
`execute_batch`. -/
def detectReplyPatterns (db : DB) : DB :=
  updateContactAverages { db with emails := detectReplyEmails db.emails }

/-- Insert `x` into `l` before the first element `y` with `before x y` (helper
for the `ORDER BY` model). -/
def insertBefore (before : α → α → Bool) (x : α) : List α → List α
  | [] => [x]
  | y :: ys => if before x y then x :: y :: ys else y :: insertBefore before x ys

/-- Insertion sort by a boolean precedence predicate, modelling `ORDER BY`
(ties may land in any order, as SQLite leaves them unspecified). -/
def sortByBefore (before : α → α → Bool) (l : List α) : List α :=
  l.foldr (insertBefore before) []

theorem insertBefore_perm (before : α → α → Bool) (x : α) (l : List α) :
    (insertBefore before x l).Perm (x :: l) := by
  induction l with
  | nil => exact List.Perm.refl _
  | cons y ys ih =>
    by_cases h : before x y = true
    · simp [insertBefore, h]
    · simp only [insertBefore, h, if_false]
      exact ((ih.cons y).trans (List.Perm.swap x y ys))

theorem sortByBefore_perm (before : α → α → Bool) (l : List α) :
    (sortByBefore before l).Perm l := by
  induction l with
  | nil => exact List.Perm.refl _
  | cons x xs ih =>
    exact (insertBefore_perm before x (sortByBefore before xs)).trans (ih.cons x)

/-- Rows feeding `detect_reachout_attempts`: `is_inbound = 1 AND replied = 0
AND timestamp >= days_ago(7)`. -/
def reachoutRows (db : DB) (now : Nat) : List EmailObs :=
  db.emails.filter (fun e =>
    e.is_inbound == some true && e.replied == false
      && !TimeVal.ltb e.timestamp (.date (daysAgoDay now 7)))

/-- Per-sender row count of `detect_reachout_attempts` (`COUNT(*)` of the
`GROUP BY from_email` group). -/
def reachoutCount (db : DB) (now : Nat) (f : String) : Nat :=
  (reachoutRows db now).countP (fun e => e.from_email == f)

/-- Senders surviving the `HAVING cnt >= 2 AND from_email NOT IN (pending
reachout)` clause of `detect_reachout_attempts`. -/
def reachoutQualifying (db : DB) (now : Nat) : List String :=
  (((reachoutRows db now).map (fun e => e.from_email)).dedup).filter (fun f =>
    decide (2 ≤ reachoutCount db now f) && !hasPendingFor db "reachout" f)

/-- Candidate built by `detect_reachout_attempts` for one sender. -/
def mkReachout (now : Nat) (f : String) : SuggestionRow :=
  { id := 0, stype := "reachout", contact_email := some f, confidence := 17/20
  , status := "pending", created_at := .instant now, acted_at := none
  , expires_at := some (.date (daysAheadDay now 3)) }

/-- `detect_reachout_attempts`: contacts with 2+ unreplied inbound emails in
the last 7 days, `ORDER BY cnt DESC LIMIT 5`. -/
def detect_reachout_attempts (db : DB) (now : Nat) : List SuggestionRow :=
  ((sortByBefore (fun a b => decide (reachoutCount db now b ≤ reachoutCount db now a))
      (reachoutQualifying db now)).take 5).map (mkReachout now)

/-- Rows selected by `detect_unanswered_threads`: inbound, unreplied, sent
between 7 days and 1 day ago, sender not already covered by a pending
`respond` suggestion. -/
def respondRows (db : DB) (now : Nat) : List EmailObs :=
  db.emails.filter (fun e =>
    e.is_inbound == some true && e.replied == false
      && TimeVal.ltb e.timestamp (.date (daysAgoDay now 1))
      && !TimeVal.ltb e.timestamp (.date (daysAgoDay now 7))
      && !hasPendingFor db "respond" e.from_email)

/-- SQLite ordering of two nullable integers with `NULL` smallest. -/
def optIntLtb : Option Int → Option Int → Bool
  | none, some _ => true
  | some a, some b => decide (a < b)
  | _, _ => false

/-- Interaction count of the contact row joined by
`LEFT JOIN contacts c ON c.email = e.from_email` (`NULL` when absent). -/
def joinedInteraction (db : DB) (e : EmailObs) : Option Int :=
  (db.contacts.find? (fun c => c.email == e.from_email)).map
    (fun c => c.interaction_count)

/-- Precedence of `ORDER BY c.interaction_count DESC, e.timestamp ASC`. -/
def respondBefore (db : DB) (a b : EmailObs) : Bool :=
  optIntLtb (joinedInteraction db b) (joinedInteraction db a)
    || (joinedInteraction db a == joinedInteraction db b
          && !TimeVal.ltb b.timestamp a.timestamp)

/-- Candidate built by `detect_unanswered_threads` for one email row. -/
def mkRespond (now : Nat) (e : EmailObs) : SuggestionRow :=
  { id := 0, stype := "respond", contact_email := some e.from_email
  , confidence := 7/10, status := "pending", created_at := .instant now
  , acted_at := none, expires_at := some (.date (daysAheadDay now 3)) }

/-- `detect_unanswered_threads`: unreplied inbound emails 1-7 days old,
`ORDER BY c.interaction_count DESC, e.timestamp ASC LIMIT 5`. -/
def detect_unanswered_threads (db : DB) (now : Nat) : List SuggestionRow :=
  ((sortByBefore (respondBefore db) (respondRows db now)).take 5).map (mkRespond now)

/-- Contacts surviving the `WHERE` clause of `detect_frequent_contacts`:
`last_seen >= days_ago(14) AND last_seen < days_ago(5) AND
interaction_count >= 3 AND email NOT IN (pending catch_up)`. -/
def catchUpQualifying (db : DB) (now : Nat) : List ContactRow :=
  db.contacts.filter (fun c =>
    !TimeVal.ltb c.last_seen (.date (daysAgoDay now 14))
      && TimeVal.ltb c.last_seen (.date (daysAgoDay now 5))
      && decide (3 ≤ c.interaction_count)
      && !hasPendingFor db "catch_up" c.email)

/-- Candidate built by `detect_frequent_contacts` for one contact:
`confidence = (count as f64 / 20.0).min(0.9)`, expiry `days_ahead(7)`. -/
def mkCatchUp (now : Nat) (c : ContactRow) : SuggestionRow :=
  { id := 0, stype := "catch_up", contact_email := some c.email
  , confidence := min ((c.interaction_count : ℚ) / 20) (9/10)
  , status := "pending", created_at := .instant now, acted_at := none
  , expires_at := some (.date (daysAheadDay now 7)) }

/-- `detect_frequent_contacts`: contacts whose `last_seen` sits in the
5-to-14-days-ago window with a lifetime `interaction_count >= 3`,
`ORDER BY interaction_count DESC LIMIT 5`. -/
def detect_frequent_contacts (db : DB) (now : Nat) : List SuggestionRow :=
  ((sortByBefore (fun a b => decide (b.interaction_count ≤ a.interaction_count))
      (catchUpQualifying db now)).take 5).map (mkCatchUp now)

/-- Events of the counting window of `detect_meeting_patterns`:
`start_time >= days_ago(30) AND start_time < days_ago(14)`. -/
def meetingWindowEvents (db : DB) (now : Nat) : List CalendarRow :=
  db.calendar.filter (fun ev =>
    !TimeVal.ltb ev.start_time (.date (daysAgoDay now 30))
      && TimeVal.ltb ev.start_time (.date (daysAgoDay now 14)))

/-- `meeting_count` of one attendee: the number of `json_each` expansion rows
carrying this email over the window events. -/
def meetingCount (db : DB) (now : Nat) (e : String) : Nat :=
  ((meetingWindowEvents db now).map (fun ev => ev.attendees.count e)).sum

/-- The exclusion subquery of `detect_meeting_patterns`: the attendee appears
in some event with `start_time >= days_ago(14)`. -/
def hasUpcomingMeeting (db : DB) (now : Nat) (e : String) : Bool :=
  db.calendar.any (fun ev =>
    !TimeVal.ltb ev.start_time (.date (daysAgoDay now 14)) && ev.attendees.contains e)

/-- Group keys of `detect_meeting_patterns`: the distinct attendee emails of
the window events. -/
def meetingPool (db : DB) (now : Nat) : List String :=
  (((meetingWindowEvents db now).map (fun ev => ev.attendees)).flatten).dedup

/-- Attendees surviving the `HAVING` clause of `detect_meeting_patterns`. -/
def meetingQualifying (db : DB) (now : Nat) : List String :=
  (meetingPool db now).filter (fun e =>
    decide (3 ≤ meetingCount db now e) && !hasUpcomingMeeting db now e
      && !hasPendingFor db "schedule_meeting" e)

/-- Candidate built by `detect_meeting_patterns` for one attendee. -/
def mkMeeting (now : Nat) (e : String) : SuggestionRow :=
  { id := 0, stype := "schedule_meeting", contact_email := some e
  , confidence := 3/5, status := "pending", created_at := .instant now
  , acted_at := none, expires_at := some (.date (daysAheadDay now 7)) }

/-- `detect_meeting_patterns`: attendees of 3+ events starting between 30 and
14 days ago with no event starting since 14 days ago,
`ORDER BY meeting_count DESC LIMIT 5`. -/
def detect_meeting_patterns (db : DB) (now : Nat) : List SuggestionRow :=
  ((sortByBefore (fun a b => decide (meetingCount db now b ≤ meetingCount db now a))
      (meetingQualifying db now)).take 5).map (mkMeeting now)

/-- The best-effort aggregation of the four detectors at the top of
`generate_suggestions` (each `if let Ok(mut s) = ... { all.append(&mut s) }`;
a failing detector contributes nothing, which is also covered by quantifying
over arbitrary candidate lists in `generate_suggestions_core`). -/
def allCandidates (db : DB) (now : Nat) : List SuggestionRow :=
  detect_reachout_attempts db now ++ detect_unanswered_threads db now
    ++ detect_frequent_contacts db now ++ detect_meeting_patterns db now

/-- The autonomy gate of `generate_suggestions`:
`if autonomy_level == "observe" { continue; }`. -/
def observeGate (db : DB) (c : SuggestionRow) : Bool :=
  autonomyLevel db c.stype == "observe"

/-- The per-candidate dedup check of `generate_suggestions`:
`SELECT COUNT(*) FROM suggestions WHERE type = ?1 AND contact_email = ?2 AND
status = 'pending'` is positive.  When the candidate carries no contact the
bound `?2` is SQL `NULL` and `contact_email = NULL` matches no row. -/
def pendingDupExists (db : DB) (c : SuggestionRow) : Bool :=
  db.suggestions.any (fun s =>
    s.stype == c.stype
      && (match c.contact_email with
          | some ce => s.contact_email == some ce
          | none => false)
      && s.status == "pending")

/-- The rowid SQLite assigns to a fresh `suggestions` insert: one more than
the largest id present. -/
def nextSuggestionId (db : DB) : Int :=
  (db.suggestions.foldr (fun s m => max s.id m) 0) + 1

/-- The row the `INSERT INTO suggestions ...` of `generate_suggestions`
appends for a candidate (status is the literal `'pending'`; `acted_at` is not
in the column list, hence `NULL`). -/
def insertedRow (db : DB) (c : SuggestionRow) : SuggestionRow :=
  { id := nextSuggestionId db, stype := c.stype
  , contact_email := c.contact_email, confidence := c.confidence
  , status := "pending", created_at := c.created_at, acted_at := none
  , expires_at := c.expires_at }

/-- The candidate loop of `generate_suggestions` (autonomy gate, dedup check,
insert), returning the updated store and the count of fresh inserts. -/
def insertCandidates (db : DB) : List SuggestionRow → DB × Nat
  | [] => (db, 0)
  | c :: rest =>
    if observeGate db c then insertCandidates db rest
    else if pendingDupExists db c then insertCandidates db rest
    else
      let db1 := { db with suggestions := db.suggestions ++ [insertedRow db c] }
      let p := insertCandidates db1 rest
      (p.1, p.2 + 1)

/-- The `WHERE` clause of the expiry sweep of `generate_suggestions`:
`status = 'pending' AND expires_at IS NOT NULL AND expires_at < now_iso()`. -/
def expiryDue (now : Nat) (s : SuggestionRow) : Bool :=
  s.status == "pending"
    && (match s.expires_at with
        | some e => TimeVal.ltb e (.instant now)
        | none => false)

/-- Row update of the expiry sweep. -/
def expireOne (now : Nat) (s : SuggestionRow) : SuggestionRow :=
  if expiryDue now s then { s with status := "expired" } else s

/-- The expiry sweep of `generate_suggestions`:
`UPDATE suggestions SET status = 'expired' WHERE status = 'pending' AND
expires_at IS NOT NULL AND expires_at < now_iso()`. -/
def expireSweep (now : Nat) (rows : List SuggestionRow) : List SuggestionRow :=
  rows.map (expireOne now)

/-- The `WHERE` clause of the garbage collection of `generate_suggestions`:
`status IN ('dismissed','expired','executed') AND acted_at < days_ago(30)`
(a `NULL` `acted_at` never satisfies `<`). -/
def gcDead (now : Nat) (s : SuggestionRow) : Bool :=
  (s.status == "dismissed" || s.status == "expired" || s.status == "executed")
    && (match s.acted_at with
        | some a => TimeVal.ltb a (.date (daysAgoDay now 30))
        | none => false)

/-- The garbage collection of `generate_suggestions`: delete the dead rows. -/
def gcSweep (now : Nat) (rows : List SuggestionRow) : List SuggestionRow :=
  rows.filter (fun s => !gcDead now s)

/-- Body of `generate_suggestions` after the detector aggregation: the early
return on an empty candidate list (which skips the sweep and the garbage
collection), then the candidate loop, the expiry sweep and the GC. -/
def generate_suggestions_core (db : DB) (cands : List SuggestionRow) (now : Nat) :
    DB × Nat :=
  if cands.isEmpty then (db, 0)
  else
    let p := insertCandidates db cands
    ({ p.1 with suggestions := gcSweep now (expireSweep now p.1.suggestions) }, p.2)

/-- `generate_suggestions`: run the four detectors best-effort, then the
candidate loop, sweep and GC. -/
def generate_suggestions (db : DB) (now : Nat) : DB × Nat :=
  generate_suggestions_core db (allCandidates db now) now

/-- The best-effort `UPDATE autonomy_settings SET total_dismissed =
total_dismissed + 1 WHERE activity_type = (SELECT type FROM suggestions WHERE
id = ?1)`: the scalar subquery result is `ty` (`NULL` for an unknown id,
which matches no autonomy row). -/
def bumpDismissed (l : List AutonomyRow) (ty : Option String) : List AutonomyRow :=
  match ty with
  | some t => l.map (fun a =>
      if a.activity_type == t then { a with total_dismissed := a.total_dismissed + 1 }
      else a)
  | none => l

/-- The accepted-counter analogue of `bumpDismissed`. -/
def bumpAccepted (l : List AutonomyRow) (ty : Option String) : List AutonomyRow :=
  match ty with
  | some t => l.map (fun a =>
      if a.activity_type == t then { a with total_accepted := a.total_accepted + 1 }
      else a)
  | none => l

/-- `dismiss_suggestion`: set the row to `dismissed`, stamp `acted_at`, then
best-effort increment `total_dismissed` of the autonomy row whose
`activity_type` equals the suggestion's type. -/
def dismissSuggestion (db : DB) (id : Int) (now : Nat) : DB :=
  let sugg := db.suggestions.map (fun s =>
    if s.id == id then { s with status := "dismissed", acted_at := some (.instant now) }
    else s)
  let ty := (sugg.find? (fun s => s.id == id)).map (fun s => s.stype)
  { db with suggestions := sugg, autonomy := bumpDismissed db.autonomy ty }

/-- `accept_suggestion`: set the row to `accepted`, stamp `acted_at`,
best-effort increment `total_accepted`, and return the updated row (`none`
models the `Err` of the final `query_row` when the id does not exist). -/
def acceptSuggestion (db : DB) (id : Int) (now : Nat) : DB × Option SuggestionRow :=
  let sugg := db.suggestions.map (fun s =>
    if s.id == id then { s with status := "accepted", acted_at := some (.instant now) }
    else s)
  let ty := (sugg.find? (fun s => s.id == id)).map (fun s => s.stype)
  ({ db with suggestions := sugg, autonomy := bumpAccepted db.autonomy ty },
   sugg.find? (fun s => s.id == id))

/-- The valid levels accepted by `set_autonomy_level`. -/
def validLevels : List String := ["observe", "suggest", "draft", "act"]

/-- `set_autonomy_level`: reject an invalid level string (`none` models the
`Err`), otherwise unconditionally `UPDATE autonomy_settings SET level = ?1,
promoted_at = ?2 WHERE activity_type = ?3`, whatever the current level is. -/
def setAutonomyLevel (db : DB) (t lvl : String) (now : Nat) : Option DB :=
  if validLevels.contains lvl then
    some { db with autonomy := db.autonomy.map (fun a =>
      if a.activity_type == t then
        { a with level := lvl, promoted_at := some (.instant now) }
      else a) }
  else none

/-- `next_autonomy_level`: the forward chain observe → suggest → draft → act. -/
def nextAutonomyLevel (current : String) : Option String :=
  if current == "observe" then some "suggest"
  else if current == "suggest" then some "draft"
  else if current == "draft" then some "act"
  else none

/-- `clear_all_data`: delete every observation, contact and suggestion row and
zero the autonomy counters while keeping the level settings. -/
def clearAllData (db : DB) : DB :=
  { contacts := [], calendar := [], emails := [], suggestions := []
  , autonomy := db.autonomy.map (fun a =>
      { a with total_accepted := 0, total_dismissed := 0 }) }

/-- One externally triggered engine operation (the `now` of each carries the
wall clock at which it runs). -/
inductive EngineOp where
  | genSuggestions (now : Nat)
  | acceptOp (id : Int) (now : Nat)
  | dismissOp (id : Int) (now : Nat)
  | sweepOp (now : Nat)
  | gcOp (now : Nat)
  | setLevelOp (t lvl : String) (now : Nat)
  | clearOp
  | touchOp (email : String) (name : Option String) (channel : String) (now : Nat)
  | replyScanOp
deriving DecidableEq, Repr

/-- Whether an operation is an explicit `set_autonomy_level` call. -/
def EngineOp.isSetLevel : EngineOp → Bool
  | .setLevelOp _ _ _ => true
  | _ => false

/-- Apply one operation to the store (`setLevelOp` with an invalid level is
the `Err` path and leaves the store untouched). -/
def applyOp (db : DB) : EngineOp → DB
  | .genSuggestions now => (generate_suggestions db now).1
  | .acceptOp id now => (acceptSuggestion db id now).1
  | .dismissOp id now => dismissSuggestion db id now
  | .sweepOp now => { db with suggestions := expireSweep now db.suggestions }
  | .gcOp now => { db with suggestions := gcSweep now db.suggestions }
  | .setLevelOp t lvl now => (setAutonomyLevel db t lvl now).getD db
  | .clearOp => clearAllData db
  | .touchOp email name channel now => upsertContact db email name channel now
  | .replyScanOp => detectReplyPatterns db

/-- Apply a sequence of operations, oldest first. -/
def applyOps (db : DB) (ops : List EngineOp) : DB :=
  ops.foldl applyOp db

/-- Two suggestion rows collide when both are `pending` with the same type and
the same non-`NULL` contact email. -/
def pendClash (a b : SuggestionRow) : Prop :=
  a.status = "pending" ∧ b.status = "pending" ∧ a.stype = b.stype
    ∧ a.contact_email ≠ none ∧ a.contact_email = b.contact_email

instance (a b : SuggestionRow) : Decidable (pendClash a b) := by
  unfold pendClash; infer_instance

/-- The dedup invariant of the suggestions table: no two distinct rows are
both `pending` for the same (type, contact) pair. -/
def dedupInv (rows : List SuggestionRow) : Prop :=
  rows.Pairwise (fun a b => ¬ pendClash a b)

instance (rows : List SuggestionRow) : Decidable (dedupInv rows) := by
  unfold dedupInv; infer_instance

/-- Current level of an activity type, `none` when the type has no row. -/
def levelOf (db : DB) (t : String) : Option String :=
  (db.autonomy.find? (fun a => a.activity_type == t)).map (fun a => a.level)

/-- Position of a level along the escalation chain
observe → suggest → draft → act. -/
def levelRank (l : String) : Nat :=
  if l == "observe" then 0
  else if l == "suggest" then 1
  else if l == "draft" then 2
  else 3

/-- Modelled from the spec: "an attendee appeared in ≥3 meetings in the
trailing 30 days and has no meeting in the next 14 days" — the trailing-30-day
count takes events starting between the date 30 days ago and `now`; the
next-14-day check looks for an event starting after `now` and no later than 14
days ahead; the pending-dedup clause is as in the detectors.  This is the
claimed trigger condition of the meeting-lapse detector, stated for comparison
with the code's `meetingQualifying`. -/
def specMeetingLapseCond (db : DB) (now : Nat) (e : String) : Bool :=
  decide (3 ≤ (db.calendar.filter (fun ev =>
      !TimeVal.ltb ev.start_time (.date (daysAgoDay now 30))
        && !TimeVal.ltb (.instant now) ev.start_time
        && ev.attendees.contains e)).length)
    && !(db.calendar.any (fun ev =>
        TimeVal.ltb (.instant now) ev.start_time
          && !TimeVal.ltb (.date (daysAheadDay now 14)) ev.start_time
          && ev.attendees.contains e))
    && !hasPendingFor db "schedule_meeting" e

/-- Modelled from the spec: "contact has ≥3 interactions in the 5–14 day
window but none in the last 5 days", evaluated over the raw interaction
history (the list of contact touches with their instants) rather than the
store, which only keeps an aggregate count.  This is the claimed trigger
condition of the catch-up detector, stated for comparison with the code's
`catchUpQualifying`. -/
def specCatchUpCond (touches : List (String × Nat)) (now : Nat) (e : String) : Bool :=
  decide (3 ≤ (touches.filter (fun p =>
      p.1 == e && !TimeVal.ltb (.instant p.2) (.date (daysAgoDay now 14))
        && TimeVal.ltb (.instant p.2) (.date (daysAgoDay now 5)))).length)
    && (touches.filter (fun p =>
        p.1 == e && !TimeVal.ltb (.instant p.2) (.date (daysAgoDay now 5)))).isEmpty

/-- Build a store from an interaction history by replaying each touch through
`upsert_contact` (the path every calendar/email participant takes). -/
def replayTouches (db : DB) (touches : List (String × Nat)) : DB :=
  touches.foldl (fun d p => upsertContact d p.1 none "email" p.2) db

theorem listMinQ_isSome {l : List ℚ} (h : l ≠ []) : ∃ m, listMinQ l = some m := by
  cases l with
  | nil => exact absurd rfl h
  | cons y ys =>
    simp only [listMinQ]
    cases listMinQ ys with
    | none => exact ⟨y, rfl⟩
    | some m0 => exact ⟨if y ≤ m0 then y else m0, rfl⟩

theorem listMinQ_mem_le (l : List ℚ) :
    ∀ m : ℚ, listMinQ l = some m → m ∈ l ∧ ∀ x ∈ l, m ≤ x := by
  induction l with
  | nil => intro m h; simp [listMinQ] at h
  | cons y ys ih =>
    intro m h
    simp only [listMinQ] at h
    cases hys : listMinQ ys with
    | none =>
      rw [hys] at h; simp at h; subst h
      have hnil : ys = [] := by
        cases ys with
        | nil => rfl
        | cons z zs =>
          exfalso
          obtain ⟨m2, hm2⟩ := listMinQ_isSome (l := z :: zs) (by simp)
          rw [hm2] at hys; cases hys
      subst hnil
      exact ⟨by simp, by intro x hx; simp at hx; subst hx; exact le_refl _⟩
    | some m0 =>
      rw [hys] at h; simp at h
      obtain ⟨hm0, hle⟩ := ih m0 hys
      subst h
      by_cases hym : y ≤ m0
      · rw [if_pos hym]
        exact ⟨by simp, by
          intro x hx
          rcases List.mem_cons.mp hx with rfl | hx
          · exact le_refl x
          · exact le_trans hym (hle x hx)⟩
      · rw [if_neg hym]
        exact ⟨by simp [hm0], by
          intro x hx
          rcases List.mem_cons.mp hx with rfl | hx
          · exact le_of_lt (lt_of_not_le hym)
          · exact hle x hx⟩

theorem sortTake_mem_of_small {α : Type} (before : α → α → Bool) (l : List α)
    (h : l.length ≤ 5) {x : α} (hx : x ∈ l) : x ∈ (sortByBefore before l).take 5 := by
  have hp := sortByBefore_perm before l
  rw [List.take_of_length_le (by rw [hp.length_eq]; exact h)]
  exact hp.mem_iff.mpr hx

theorem sortTake_subset {α : Type} (before : α → α → Bool) (l : List α)
    {x : α} (hx : x ∈ (sortByBefore before l).take 5) : x ∈ l :=
  (sortByBefore_perm before l).mem_iff.mp (List.take_subset 5 _ hx)

theorem dedupInv_map (f : SuggestionRow → SuggestionRow)
    (hf : ∀ s, f s = s ∨ (f s).status ≠ "pending")
    {rows : List SuggestionRow} (h : dedupInv rows) : dedupInv (rows.map f) := by
  refine List.Pairwise.map f (fun a b hab hclash => hab ?_) h
  have ha : f a = a := by
    rcases hf a with h1 | h1
    · exact h1
    · exact absurd hclash.1 h1
  have hb : f b = b := by
    rcases hf b with h1 | h1
    · exact h1
    · exact absurd hclash.2.1 h1
  rwa [ha, hb] at hclash

theorem dedupInv_filter (p : SuggestionRow → Bool)
    {rows : List SuggestionRow} (h : dedupInv rows) : dedupInv (rows.filter p) :=
  h.sublist (List.filter_sublist rows)

theorem dedupInv_insert (db : DB) (c : SuggestionRow)
    (h : dedupInv db.suggestions) (hdup : pendingDupExists db c = false) :
    dedupInv (db.suggestions ++ [insertedRow db c]) := by
  rw [dedupInv, List.pairwise_append]
  refine ⟨h, List.pairwise_singleton _ _, ?_⟩
  intro a ha b hb hclash
  simp only [List.mem_singleton] at hb
  subst hb
  obtain ⟨hap, hbp, hty, hnn, hce⟩ := hclash
  rw [pendingDupExists, Bool.eq_false_iff] at hdup
  apply hdup
  rw [List.any_eq_true]
  refine ⟨a, ha, ?_⟩
  obtain ⟨ce, hace⟩ := Option.ne_none_iff_exists'.mp hnn
  have : (insertedRow db c).contact_email = c.contact_email := rfl
  rw [this] at hce
  have hty2 : a.stype = c.stype := by
    have : (insertedRow db c).stype = c.stype := rfl
    rw [this] at hty; exact hty
  simp [hty2, ← hce, hace, hap]

theorem insertCandidates_autonomy (db : DB) (cands : List SuggestionRow) :
    (insertCandidates db cands).1.autonomy = db.autonomy := by
  induction cands generalizing db with
  | nil => rfl
  | cons c rest ih =>
    simp only [insertCandidates]
    split
    · exact ih db
    · split
      · exact ih db
      · exact ih _

theorem dedupInv_insertCandidates (db : DB) (cands : List SuggestionRow)
    (h : dedupInv db.suggestions) : dedupInv (insertCandidates db cands).1.suggestions := by
  induction cands generalizing db with
  | nil => exact h
  | cons c rest ih =>
    simp only [insertCandidates]
    split
    · exact ih db h
    · split
      · exact ih db h
      · rename_i hgate hdup
        exact ih _ (dedupInv_insert db c h (Bool.eq_false_iff.mpr hdup))

theorem upsertContact_suggestions (db : DB) (email : String) (name : Option String)
    (channel : String) (now : Nat) :
    (upsertContact db email name channel now).suggestions = db.suggestions := by
  rw [upsertContact]; split <;> rfl

theorem upsertContact_autonomy (db : DB) (email : String) (name : Option String)
    (channel : String) (now : Nat) :
    (upsertContact db email name channel now).autonomy = db.autonomy := by
  rw [upsertContact]; split <;> rfl

theorem insertCandidates_filter_observe (db : DB) (cands : List SuggestionRow) (t : String)
    (h : autonomyLevel db t = "observe") :
    (insertCandidates db cands).1.suggestions.filter (fun s => s.stype == t)
      = db.suggestions.filter (fun s => s.stype == t) := by
  induction cands generalizing db with
  | nil => rfl
  | cons c rest ih =>
    simp only [insertCandidates]
    split
    · exact ih db h
    · split
      · exact ih db h
      · rename_i hgate _
        have hct : c.stype ≠ t := by
          intro hct
          apply hgate
          rw [observeGate, hct, h]
          rfl
        dsimp only
        rw [ih { db with suggestions := db.suggestions ++ [insertedRow db c] } h]
        have hrow : ((insertedRow db c).stype == t) = false := by
          simp [insertedRow, hct]
        simp [List.filter_append, hrow]

theorem countP_map_stype (f : SuggestionRow → SuggestionRow)
    (hf : ∀ s, (f s).stype = s.stype) (rows : List SuggestionRow) (t : String) :
    (rows.map f).countP (fun s => s.stype == t) = rows.countP (fun s => s.stype == t) := by
  rw [List.countP_map]
  apply List.countP_congr
  intro s _
  simp [Function.comp, hf s]

/-- C1: with an `autonomy_settings` level of `observe` for a type, the
candidate loop of `generate_suggestions` inserts zero rows of that type — the
type's filtered slice of the table is unchanged by the loop, and a full
`generate_suggestions` run never increases the number of rows of that type —
whatever candidate list the detectors produced. -/
theorem c1_autonomy_gating (db : DB) (cands : List SuggestionRow) (now : Nat) (t : String)
    (h : autonomyLevel db t = "observe") :
    (insertCandidates db cands).1.suggestions.filter (fun s => s.stype == t)
      = db.suggestions.filter (fun s => s.stype == t)
    ∧ (generate_suggestions_core db cands now).1.suggestions.countP (fun s => s.stype == t)
      ≤ db.suggestions.countP (fun s => s.stype == t) := by
  refine ⟨insertCandidates_filter_observe db cands t h, ?_⟩
  rw [generate_suggestions_core]
  split
  · exact le_refl _
  · show (gcSweep now (expireSweep now (insertCandidates db cands).1.suggestions)).countP
        (fun s => s.stype == t) ≤ _
    have h1 : (gcSweep now (expireSweep now (insertCandidates db cands).1.suggestions)).countP
        (fun s => s.stype == t)
        ≤ (expireSweep now (insertCandidates db cands).1.suggestions).countP
            (fun s => s.stype == t) :=
      List.Sublist.countP_le _ (List.filter_sublist _)
    have h2 : (expireSweep now (insertCandidates db cands).1.suggestions).countP
        (fun s => s.stype == t)
        = (insertCandidates db cands).1.suggestions.countP (fun s => s.stype == t) := by
      rw [expireSweep]
      exact countP_map_stype (expireOne now)
        (fun s => by rw [expireOne]; split <;> rfl) _ t
    have h3 : (insertCandidates db cands).1.suggestions.countP (fun s => s.stype == t)
        = db.suggestions.countP (fun s => s.stype == t) := by
      rw [List.countP_eq_length_filter, List.countP_eq_length_filter,
        insertCandidates_filter_observe db cands t h]
    omega

/-- Concrete input of C1: an autonomy row pinning `reachout` to `observe` and
one `reachout` candidate; zero rows of that type get in. -/
def exDbC1 : DB := ⟨[], [], [], [], [⟨"reachout", "observe", none, 0, 0⟩]⟩

theorem c1_autonomy_gating_witness :
    autonomyLevel exDbC1 "reachout" = "observe"
    ∧ (insertCandidates exDbC1 [mkReachout 0 "x@y.com"]).1.suggestions.filter
        (fun s => s.stype == "reachout") = []
    ∧ (generate_suggestions_core exDbC1 [mkReachout 0 "x@y.com"] 0).1.suggestions.countP
        (fun s => s.stype == "reachout") ≤ 0 := by
  have h := c1_autonomy_gating exDbC1 [mkReachout 0 "x@y.com"] 0 "reachout" (by decide)
  exact ⟨by decide, h.1.trans (by decide), le_trans h.2 (by decide)⟩

theorem dedupInv_applyOp (db : DB) (op : EngineOp) (h : dedupInv db.suggestions) :
    dedupInv (applyOp db op).suggestions := by
  cases op with
  | genSuggestions now =>
    show dedupInv (generate_suggestions_core db (allCandidates db now) now).1.suggestions
    rw [generate_suggestions_core]
    split
    · exact h
    · show dedupInv (gcSweep now (expireSweep now
        (insertCandidates db (allCandidates db now)).1.suggestions))
      refine dedupInv_filter _ (dedupInv_map (expireOne now) ?_
        (dedupInv_insertCandidates db _ h))
      intro s
      rw [expireOne]
      split
      · right; simp
      · left; rfl
  | acceptOp id now =>
    show dedupInv (db.suggestions.map fun s =>
      if s.id == id then { s with status := "accepted", acted_at := some (.instant now) } else s)
    refine dedupInv_map _ ?_ h
    intro s
    dsimp only
    split
    · right; simp
    · left; rfl
  | dismissOp id now =>
    show dedupInv (db.suggestions.map fun s =>
      if s.id == id then { s with status := "dismissed", acted_at := some (.instant now) } else s)
    refine dedupInv_map _ ?_ h
    intro s
    dsimp only
    split
    · right; simp
    · left; rfl
  | sweepOp now =>
    show dedupInv (db.suggestions.map (expireOne now))
    refine dedupInv_map (expireOne now) ?_ h
    intro s
    rw [expireOne]
    split
    · right; simp
    · left; rfl
  | gcOp now => exact dedupInv_filter _ h
  | setLevelOp t lvl now =>
    show dedupInv ((setAutonomyLevel db t lvl now).getD db).suggestions
    rw [setAutonomyLevel]
    split
    · exact h
    · exact h
  | clearOp => exact List.Pairwise.nil
  | touchOp email name channel now =>
    show dedupInv (upsertContact db email name channel now).suggestions
    rw [upsertContact_suggestions]
    exact h
  | replyScanOp => exact h

/-- C2: starting from any store satisfying the dedup invariant (at most one
`pending` suggestion per (type, contact) pair), any sequence of engine
operations — suggestion generation, accept, dismiss, the expiry sweep, the
garbage collection, as well as level changes, data reset, contact touches and
reply scans — preserves the invariant. -/
theorem c2_dedup_invariant (db : DB) (ops : List EngineOp) (h : dedupInv db.suggestions) :
    dedupInv (applyOps db ops).suggestions := by
  induction ops generalizing db with
  | nil => exact h
  | cons op rest ih => exact ih _ (dedupInv_applyOp db op h)

/-- Concrete operation sequence of C2: three contact touches building a
catch-up trigger, then a generation cycle, an accept, a sweep and a GC. -/
def exOps2 : List EngineOp :=
  [ .touchOp "a@x.com" none "email" 8035200
  , .touchOp "a@x.com" none "email" 8035300
  , .touchOp "a@x.com" none "email" 8035400
  , .genSuggestions 8640000
  , .acceptOp 1 8640000
  , .sweepOp 8650000
  , .gcOp 8650000 ]

theorem c2_dedup_invariant_witness :
    dedupInv (applyOps initDB exOps2).suggestions :=
  c2_dedup_invariant initDB exOps2 List.Pairwise.nil

theorem replyWitness_markReplied (full : List EmailObs) (e x : EmailObs) :
    replyWitness e (markReplied full x) = replyWitness e x := by
  rw [markReplied]; split <;> rfl

theorem replyDelta_markReplied (full : List EmailObs) (e x : EmailObs) :
    replyDelta e (markReplied full x) = replyDelta e x := by
  rw [markReplied]; split <;> rfl

theorem map_markReplied_filter (full tbl : List EmailObs) (e : EmailObs) :
    ((tbl.map (markReplied full)).filter (replyWitness e)).map (replyDelta e)
      = (tbl.filter (replyWitness e)).map (replyDelta e) := by
  induction tbl with
  | nil => rfl
  | cons x xs ih =>
    simp only [List.map_cons, List.filter_cons, replyWitness_markReplied full e x]
    by_cases hx : replyWitness e x = true
    · simp [hx, ih, replyDelta_markReplied full e x]
    · simp [hx, ih]

/-- C3: after `detect_reply_patterns`, an inbound, unreplied observation with
no recorded latency ends with `replied = true` exactly when some observation
of the same thread is outbound with a strictly later timestamp, and in that
case its latency is the minimum delta in minutes to the qualifying later
outbound messages (the transformed row is the member of the resulting table
corresponding to `e`). -/
theorem c3_reply_detection (tbl : List EmailObs) (e : EmailObs)
    (he : e ∈ tbl) (hin : e.is_inbound = some true) (hrep : e.replied = false)
    (hlat : e.reply_time_mins = none) :
    setLatency (tbl.map (markReplied tbl)) (markReplied tbl e) ∈ detectReplyEmails tbl
    ∧ ((setLatency (tbl.map (markReplied tbl)) (markReplied tbl e)).replied = true
        ↔ ∃ e2 ∈ tbl, e2.thread_id = e.thread_id ∧ e2.is_inbound = some false
            ∧ TimeVal.ltb e.timestamp e2.timestamp = true)
    ∧ ((setLatency (tbl.map (markReplied tbl)) (markReplied tbl e)).replied = true
        → ∃ m, (setLatency (tbl.map (markReplied tbl)) (markReplied tbl e)).reply_time_mins
              = some m
            ∧ (∃ e3 ∈ tbl, replyWitness e e3 = true ∧ m = replyDelta e e3)
            ∧ ∀ e2 ∈ tbl, replyWitness e e2 = true → m ≤ replyDelta e e2) := by
  have hwiff : ∀ e2 : EmailObs, replyWitness e e2 = true
      ↔ (e2.thread_id = e.thread_id ∧ e2.is_inbound = some false
          ∧ TimeVal.ltb e.timestamp e2.timestamp = true) := by
    intro e2
    simp [replyWitness, Bool.and_eq_true, and_assoc]
  refine ⟨List.mem_map_of_mem _ (List.mem_map_of_mem _ he), ?_⟩
  cases hany : tbl.any (replyWitness e) with
  | false =>
    have hmark : markReplied tbl e = e := by
      rw [markReplied, if_neg]
      simp [hany]
    have hsl : setLatency (tbl.map (markReplied tbl)) (markReplied tbl e) = e := by
      rw [hmark, setLatency, if_neg]
      simp [hrep]
    rw [hsl]
    have hnone : ¬ ∃ e2 ∈ tbl, e2.thread_id = e.thread_id ∧ e2.is_inbound = some false
        ∧ TimeVal.ltb e.timestamp e2.timestamp = true := by
      rintro ⟨e2, he2, hcond⟩
      have : replyWitness e e2 = true := (hwiff e2).mpr hcond
      have := List.any_eq_true.mpr ⟨e2, he2, this⟩
      rw [hany] at this
      cases this
    constructor
    · constructor
      · intro habs; rw [hrep] at habs; cases habs
      · intro habs; exact absurd habs hnone
    · intro habs; rw [hrep] at habs; cases habs
  | true =>
    obtain ⟨ew, hew, hwit⟩ := List.any_eq_true.mp hany
    have hmark : markReplied tbl e = { e with replied := true } := by
      rw [markReplied, if_pos]
      simp [hin, hrep, hany]
    have hsl : setLatency (tbl.map (markReplied tbl)) (markReplied tbl e)
        = { e with replied := true, reply_time_mins :=
              listMinQ (((tbl.map (markReplied tbl)).filter
                (replyWitness e)).map (replyDelta e)) } := by
      rw [hmark, setLatency, if_pos]
      · rfl
      · simp [hin, hlat]
    rw [hsl, map_markReplied_filter tbl tbl e]
    have hne : (tbl.filter (replyWitness e)).map (replyDelta e) ≠ [] := by
      have : ew ∈ tbl.filter (replyWitness e) := List.mem_filter.mpr ⟨hew, hwit⟩
      intro habs
      rw [List.map_eq_nil_iff] at habs
      rw [habs] at this
      cases this
    obtain ⟨m, hm⟩ := listMinQ_isSome hne
    obtain ⟨hmmem, hmle⟩ := listMinQ_mem_le _ m hm
    constructor
    · constructor
      · intro _
        exact ⟨ew, hew, (hwiff ew).mp hwit⟩
      · intro _; rfl
    · intro _
      refine ⟨m, by rw [hm], ?_, ?_⟩
      · obtain ⟨e3, he3f, he3d⟩ := List.mem_map.mp hmmem
        obtain ⟨he3, hw3⟩ := List.mem_filter.mp he3f
        exact ⟨e3, he3, hw3, he3d.symm⟩
      · intro e2 he2 hw2
        exact hmle _ (List.mem_map_of_mem _ (List.mem_filter.mpr ⟨he2, hw2⟩))

/-- Concrete input of C3: an inbound message at t = 0 with outbound messages
of the same thread at 10 and 45 minutes. -/
def exInb : EmailObs :=
  ⟨"t1", some "m1", "alice@x.com", ["me@x.com"], none, .instant 0, some true,
    false, none, none, .instant 3000⟩

/-- Outbound reply at 10 minutes. -/
def exOutA : EmailObs :=
  ⟨"t1", some "m2", "me@x.com", ["alice@x.com"], none, .instant 600, some false,
    false, none, none, .instant 3000⟩

/-- Outbound reply at 45 minutes. -/
def exOutB : EmailObs :=
  ⟨"t1", some "m3", "me@x.com", ["alice@x.com"], none, .instant 2700, some false,
    false, none, none, .instant 3000⟩

/-- The three-message thread of C3's concrete scenario. -/
def exReplyTbl : List EmailObs := [exInb, exOutA, exOutB]

theorem c3_reply_detection_witness :
    (setLatency (exReplyTbl.map (markReplied exReplyTbl)) (markReplied exReplyTbl exInb)).replied
      = true
    ∧ (setLatency (exReplyTbl.map (markReplied exReplyTbl))
        (markReplied exReplyTbl exInb)).reply_time_mins = some 10 := by
  have h := c3_reply_detection exReplyTbl exInb (by decide) rfl rfl rfl
  have hrep : (setLatency (exReplyTbl.map (markReplied exReplyTbl))
      (markReplied exReplyTbl exInb)).replied = true :=
    h.2.1.mpr ⟨exOutA, by decide, by decide, by decide, by decide⟩
  refine ⟨hrep, ?_⟩
  obtain ⟨m, hm, ⟨e3, he3, hw3, hd3⟩, hmin⟩ := h.2.2 hrep
  have hda : replyDelta exInb exOutA = 10 := by
    norm_num [replyDelta, exInb, exOutA, TimeVal.secs]
  have hdb : replyDelta exInb exOutB = 45 := by
    norm_num [replyDelta, exInb, exOutB, TimeVal.secs]
  have hm10 : m = 10 := by
    have hle : m ≤ 10 := hda ▸ hmin exOutA (by decide) (by decide)
    simp only [exReplyTbl, List.mem_cons, List.not_mem_nil, or_false] at he3
    rcases he3 with rfl | rfl | rfl
    · exact absurd hw3 (by decide)
    · rw [hd3, hda]
    · exfalso; rw [hd3, hdb] at hle; norm_num at hle
  rw [hm, hm10]

theorem generate_core_suggestions_eq (db : DB) (cands : List SuggestionRow) (now : Nat)
    (h : cands.isEmpty = false) :
    (generate_suggestions_core db cands now).1.suggestions
      = gcSweep now (expireSweep now (insertCandidates db cands).1.suggestions) := by
  rw [generate_suggestions_core, if_neg (by rw [h]; exact Bool.false_ne_true)]

theorem insertCandidates_keeps (db : DB) (cands : List SuggestionRow) :
    ∀ s ∈ db.suggestions, s ∈ (insertCandidates db cands).1.suggestions := by
  induction cands generalizing db with
  | nil => intro s hs; exact hs
  | cons c rest ih =>
    intro s hs
    simp only [insertCandidates]
    split
    · exact ih db s hs
    · split
      · exact ih db s hs
      · dsimp only
        exact ih _ s (List.mem_append_left _ hs)

/-- Concrete input of C4: a lone pending suggestion whose expiry (1970-01-04)
is long past, in a store on which every detector comes up empty. -/
def exRow4 : SuggestionRow :=
  ⟨1, "respond", some "alice@x.com", 1, "pending", .instant 100, none, some (.date 3)⟩

/-- Store of C4's counterexample. -/
def exDb4 : DB := ⟨[], [], [], [exRow4], seedAutonomy⟩

theorem c4_counterexample :
    (exDb4.suggestions.map (fun s => s.status)) = ["pending"]
    ∧ expiryDue 9000000 exRow4 = true
    ∧ ((generate_suggestions exDb4 9000000).1.suggestions.map (fun s => s.status))
        = ["pending"]
    ∧ (generate_suggestions exDb4 9000000).2 = 0 := by decide

/-- C4 (amended): the expiry sweep and GC of `generate_suggestions` run only
when the detectors together produce at least one candidate; on such a run, no
suggestion left `pending` still has a passed `expires_at` (every such row was
marked `expired`).  A run with zero candidates returns early, skipping the
sweep. -/
theorem c4_amended (db : DB) (cands : List SuggestionRow) (now : Nat)
    (h : cands ≠ []) :
    ∀ s ∈ (generate_suggestions_core db cands now).1.suggestions,
      s.status = "pending" → expiryDue now s = false := by
  intro s hs hp
  have hne : cands.isEmpty = false := by
    cases cands with
    | nil => exact absurd rfl h
    | cons _ _ => rfl
  rw [generate_core_suggestions_eq db cands now hne] at hs
  have hs2 : s ∈ expireSweep now (insertCandidates db cands).1.suggestions :=
    List.mem_of_mem_filter hs
  obtain ⟨x, hx, hxs⟩ := List.mem_map.mp hs2
  rw [expireOne] at hxs
  by_cases hc : expiryDue now x = true
  · rw [if_pos hc] at hxs
    subst hxs
    exact absurd hp (by simp)
  · rw [if_neg hc] at hxs
    subst hxs
    exact Bool.eq_false_iff.mpr hc

theorem c4_amended_witness :
    ([mkReachout 9000000 "x@y.com"] : List SuggestionRow) ≠ []
    ∧ ((generate_suggestions_core exDb4 [mkReachout 9000000 "x@y.com"] 9000000).1.suggestions.map
        (fun s => s.status)) = ["expired", "pending"]
    ∧ (generate_suggestions_core exDb4 [mkReachout 9000000 "x@y.com"] 9000000).1.suggestions.all
        (fun s => !(s.status == "pending" && expiryDue 9000000 s)) = true := by
  refine ⟨by simp, by decide, ?_⟩
  rw [List.all_eq_true]
  intro s hs
  have hgen := c4_amended exDb4 [mkReachout 9000000 "x@y.com"] 9000000 (by simp) s hs
  by_cases hp : s.status = "pending"
  · have hf := hgen hp
    simp [hf]
  · simp [hp]

/-- Concrete input of C5: a `dismissed` suggestion acted on at day 169, 31
days before day 200 (`now = 17280000`), in a store on which every detector
comes up empty. -/
def exRow5a : SuggestionRow :=
  ⟨1, "respond", some "alice@x.com", 1, "dismissed", .instant 100,
    some (.instant 14601600), none⟩

/-- Store of C5's counterexample. -/
def exDb5 : DB := ⟨[], [], [], [exRow5a], seedAutonomy⟩

theorem c5_counterexample :
    exRow5a.status = "dismissed"
    ∧ gcDead 17280000 exRow5a = true
    ∧ ((generate_suggestions exDb5 17280000).1.suggestions.map (fun s => s.id)) = [1]
    ∧ (generate_suggestions exDb5 17280000).2 = 0 := by decide

/-- C5 (amended): on a `generate_suggestions` run whose detectors produce at
least one candidate, a suggestion in a terminal status (`dismissed`,
`expired`, `executed`) is deleted exactly when the date of its `acted_at` is
strictly before the date 30 days ago (day granularity of `days_ago`); in
particular an `acted_at` 31 days in the past is purged and one 29 days in the
past is retained.  On a zero-candidate run nothing is deleted. -/
theorem c5_amended (db : DB) (cands : List SuggestionRow) (now : Nat)
    (r : SuggestionRow) (a : TimeVal) (hc : cands ≠ []) (hr : r ∈ db.suggestions)
    (hterm : r.status = "dismissed" ∨ r.status = "expired" ∨ r.status = "executed")
    (ha : r.acted_at = some a) :
    (TimeVal.ltb a (.date (daysAgoDay now 30)) = true
      → r ∉ (generate_suggestions_core db cands now).1.suggestions)
    ∧ (TimeVal.ltb a (.date (daysAgoDay now 30)) = false
      → r ∈ (generate_suggestions_core db cands now).1.suggestions) := by
  have hne : cands.isEmpty = false := by
    cases cands with
    | nil => exact absurd rfl hc
    | cons _ _ => rfl
  have hnp : (r.status == "pending") = false := by
    rcases hterm with h | h | h <;> simp [h]
  have hgcd : ∀ b : Bool, TimeVal.ltb a (.date (daysAgoDay now 30)) = b
      → gcDead now r = b := by
    intro b hb
    rw [gcDead, ha]
    rcases hterm with h | h | h <;> simp [h, hb]
  rw [generate_core_suggestions_eq db cands now hne]
  constructor
  · intro hlt hmem
    have := (List.mem_filter.mp hmem).2
    rw [hgcd true hlt] at this
    cases this
  · intro hlt
    have hkeep : r ∈ (insertCandidates db cands).1.suggestions :=
      insertCandidates_keeps db cands r hr
    have hsw : r ∈ expireSweep now (insertCandidates db cands).1.suggestions := by
      refine List.mem_map.mpr ⟨r, hkeep, ?_⟩
      rw [expireOne, if_neg]
      rw [expiryDue, hnp]
      simp
    refine List.mem_filter.mpr ⟨hsw, ?_⟩
    rw [hgcd false hlt]
    rfl

/-- Second row of C5's witness: `dismissed`, acted on at day 171, 29 days
before day 200; it must be retained. -/
def exRow5b : SuggestionRow :=
  ⟨2, "respond", some "bob@x.com", 1, "dismissed", .instant 100,
    some (.instant 14774400), none⟩

/-- Store of C5's witness: one 31-day-old and one 29-day-old dismissed row. -/
def exDb5w : DB := ⟨[], [], [], [exRow5a, exRow5b], seedAutonomy⟩

theorem c5_amended_witness :
    exRow5a ∉ (generate_suggestions_core exDb5w [mkReachout 17280000 "z@y.com"]
      17280000).1.suggestions
    ∧ exRow5b ∈ (generate_suggestions_core exDb5w [mkReachout 17280000 "z@y.com"]
      17280000).1.suggestions := by
  have ha := c5_amended exDb5w [mkReachout 17280000 "z@y.com"] 17280000 exRow5a
    (.instant 14601600) (by simp) (List.mem_cons_self _ _) (Or.inl rfl) rfl
  have hb := c5_amended exDb5w [mkReachout 17280000 "z@y.com"] 17280000 exRow5b
    (.instant 14774400) (by simp) (List.mem_cons_of_mem _ (List.mem_cons_self _ _))
    (Or.inl rfl) rfl
  exact ⟨ha.1 (by decide), hb.2 (by decide)⟩

theorem mem_pool_of_count (db : DB) (now : Nat) (e : String)
    (h : 3 ≤ meetingCount db now e) : e ∈ meetingPool db now := by
  rw [meetingPool, List.mem_dedup, List.mem_flatten]
  by_contra habs
  push_neg at habs
  have hz : meetingCount db now e = 0 := by
    rw [meetingCount]
    apply List.sum_eq_zero_iff.mpr
    intro x hx
    obtain ⟨ev, hev, hxe⟩ := List.mem_map.mp hx
    have he : e ∉ ev.attendees := habs ev.attendees (List.mem_map_of_mem _ hev)
    rw [← hxe]
    exact List.count_eq_zero.mpr he
  omega

/-- C6 (amended): `detect_meeting_patterns` proposes a suggestion for an
attendee exactly when the attendee occurs at least 3 times over events
starting between 30 and 14 days ago and in no event starting on or after the
date 14 days ago (not "trailing 30 days" / "next 14 days"), with no pending
`schedule_meeting` suggestion for them — exactness holding whenever at most 5
attendees qualify (the detector caps at the 5 highest counts) — and every
proposal carries confidence 0.60 and expiry 7 days ahead. -/
theorem c6_meeting_lapse (db : DB) (now : Nat) :
    (∀ s ∈ detect_meeting_patterns db now,
        s.stype = "schedule_meeting" ∧ s.confidence = 3/5
          ∧ s.expires_at = some (.date (daysAheadDay now 7))
          ∧ ∃ e, s.contact_email = some e
              ∧ 3 ≤ meetingCount db now e
              ∧ hasUpcomingMeeting db now e = false
              ∧ hasPendingFor db "schedule_meeting" e = false)
    ∧ ((meetingQualifying db now).length ≤ 5 →
        ∀ e, 3 ≤ meetingCount db now e → hasUpcomingMeeting db now e = false →
          hasPendingFor db "schedule_meeting" e = false →
          ∃ s ∈ detect_meeting_patterns db now, s.contact_email = some e) := by
  constructor
  · intro s hs
    rw [detect_meeting_patterns] at hs
    obtain ⟨e, he, hse⟩ := List.mem_map.mp hs
    have heq : e ∈ meetingQualifying db now := sortTake_subset _ _ he
    rw [meetingQualifying, List.mem_filter] at heq
    obtain ⟨_, hcond⟩ := heq
    simp only [Bool.and_eq_true, Bool.not_eq_true', decide_eq_true_eq] at hcond
    subst hse
    exact ⟨rfl, rfl, rfl, e, rfl, hcond.1.1, hcond.1.2, hcond.2⟩
  · intro hlen e hcnt hup hpend
    have hq : e ∈ meetingQualifying db now := by
      rw [meetingQualifying, List.mem_filter]
      refine ⟨mem_pool_of_count db now e hcnt, ?_⟩
      simp [hcnt, hup, hpend]
    refine ⟨mkMeeting now e, ?_, rfl⟩
    rw [detect_meeting_patterns]
    exact List.mem_map_of_mem _ (sortTake_mem_of_small _ _ hlen hq)

/-- Calendar events of C6's witness: three meetings with `amy@x.com` at day
180 — inside the code's counting window for `now` at day 200. -/
def exDb6w : DB :=
  ⟨[],
   [ ⟨"e1", none, .instant 15552000, .instant 15555600, ["amy@x.com"], none, false, none, .instant 17280000⟩
   , ⟨"e2", none, .instant 15552100, .instant 15555700, ["amy@x.com"], none, false, none, .instant 17280000⟩
   , ⟨"e3", none, .instant 15552200, .instant 15555800, ["amy@x.com"], none, false, none, .instant 17280000⟩ ],
   [], [], seedAutonomy⟩

theorem c6_meeting_lapse_witness :
    (meetingQualifying exDb6w 17280000).length ≤ 5
    ∧ 3 ≤ meetingCount exDb6w 17280000 "amy@x.com"
    ∧ (detect_meeting_patterns exDb6w 17280000).any
        (fun s => s.contact_email == some "amy@x.com") = true := by
  have h := (c6_meeting_lapse exDb6w 17280000).2 (by decide) "amy@x.com"
    (by decide) (by decide) (by decide)
  obtain ⟨s, hs, hse⟩ := h
  exact ⟨by decide, by decide, List.any_eq_true.mpr ⟨s, hs, by simp [hse]⟩⟩

/-- Calendar events of C6's counterexample: three meetings with `amy@x.com` at
day 190, 10 days before `now` at day 200 — inside the spec's "trailing 30
days", outside the code's counting window. -/
def exDb6c : DB :=
  ⟨[],
   [ ⟨"e1", none, .instant 16416000, .instant 16419600, ["amy@x.com"], none, false, none, .instant 17280000⟩
   , ⟨"e2", none, .instant 16416100, .instant 16419700, ["amy@x.com"], none, false, none, .instant 17280000⟩
   , ⟨"e3", none, .instant 16416200, .instant 16419800, ["amy@x.com"], none, false, none, .instant 17280000⟩ ],
   [], [], seedAutonomy⟩

theorem c6_counterexample :
    specMeetingLapseCond exDb6c 17280000 "amy@x.com" = true
    ∧ detect_meeting_patterns exDb6c 17280000 = [] := by decide

/-- C7 (amended): `detect_frequent_contacts` proposes a suggestion for a
contact exactly when the contact's `last_seen` falls between the dates 14 and
5 days ago (day granularity) and its lifetime `interaction_count` is at least
3 (not "≥3 interactions inside the 5–14 day window"), with no pending
`catch_up` suggestion for them — exactness holding whenever at most 5 contacts
qualify — and every proposal carries confidence
`min(interaction_count / 20, 0.9)` (lifetime count) and expiry 7 days
ahead. -/
theorem c7_catch_up (db : DB) (now : Nat) :
    (∀ s ∈ detect_frequent_contacts db now,
        s.stype = "catch_up"
          ∧ s.expires_at = some (.date (daysAheadDay now 7))
          ∧ ∃ c ∈ db.contacts, s.contact_email = some c.email
              ∧ s.confidence = min ((c.interaction_count : ℚ) / 20) (9/10)
              ∧ TimeVal.ltb c.last_seen (.date (daysAgoDay now 14)) = false
              ∧ TimeVal.ltb c.last_seen (.date (daysAgoDay now 5)) = true
              ∧ 3 ≤ c.interaction_count
              ∧ hasPendingFor db "catch_up" c.email = false)
    ∧ ((catchUpQualifying db now).length ≤ 5 →
        ∀ c ∈ db.contacts,
          TimeVal.ltb c.last_seen (.date (daysAgoDay now 14)) = false →
          TimeVal.ltb c.last_seen (.date (daysAgoDay now 5)) = true →
          3 ≤ c.interaction_count →
          hasPendingFor db "catch_up" c.email = false →
          ∃ s ∈ detect_frequent_contacts db now, s.contact_email = some c.email) := by
  constructor
  · intro s hs
    rw [detect_frequent_contacts] at hs
    obtain ⟨c, hc, hsc⟩ := List.mem_map.mp hs
    have hcq : c ∈ catchUpQualifying db now := sortTake_subset _ _ hc
    rw [catchUpQualifying, List.mem_filter] at hcq
    obtain ⟨hmem, hcond⟩ := hcq
    simp only [Bool.and_eq_true, Bool.not_eq_true', decide_eq_true_eq] at hcond
    subst hsc
    exact ⟨rfl, rfl, c, hmem, rfl, rfl, hcond.1.1.1, hcond.1.1.2, hcond.1.2, hcond.2⟩
  · intro hlen c hc h14 h5 hcnt hpend
    have hq : c ∈ catchUpQualifying db now := by
      rw [catchUpQualifying, List.mem_filter]
      refine ⟨hc, ?_⟩
      simp [h14, h5, hcnt, hpend]
    refine ⟨mkCatchUp now c, ?_, rfl⟩
    rw [detect_frequent_contacts]
    exact List.mem_map_of_mem _ (sortTake_mem_of_small _ _ hlen hq)

/-- Contact of C7's witness: `last_seen` at day 93, lifetime count 4, with
`now` at day 100. -/
def exC7 : ContactRow :=
  ⟨"bob@x.com", none, .instant 8035200, .instant 8035200, 4, none, some "email",
    none, .instant 8035200, .instant 8035200⟩

/-- Store of C7's witness. -/
def exDb7w : DB := ⟨[exC7], [], [], [], seedAutonomy⟩

theorem c7_catch_up_witness :
    (catchUpQualifying exDb7w 8640000).length ≤ 5
    ∧ (detect_frequent_contacts exDb7w 8640000).any
        (fun s => s.contact_email == some "bob@x.com") = true := by
  have h := (c7_catch_up exDb7w 8640000).2 (by decide) exC7 (List.mem_cons_self _ _)
    (by decide) (by decide) (by decide) (by decide)
  obtain ⟨s, hs, hse⟩ := h
  exact ⟨by decide, List.any_eq_true.mpr ⟨s, hs, by simp [hse, exC7]⟩⟩

/-- Interaction history of C7's counterexample: four touches at day 40 and a
single touch at day 93, with `now` at day 100 — one interaction inside the
5–14-day window, lifetime count 5. -/
def exTouches : List (String × Nat) :=
  [ ("a@x.com", 3456000), ("a@x.com", 3456060), ("a@x.com", 3456120)
  , ("a@x.com", 3456180), ("a@x.com", 8035200) ]

/-- Store of C7's counterexample, built by replaying the history. -/
def exDb7 : DB := replayTouches initDB exTouches

theorem c7_counterexample :
    specCatchUpCond exTouches 8640000 "a@x.com" = false
    ∧ (detect_frequent_contacts exDb7 8640000).any
        (fun s => s.contact_email == some "a@x.com") = true := by decide

theorem find?_map_level (l : List AutonomyRow) (f : AutonomyRow → AutonomyRow)
    (hf : ∀ a, (f a).activity_type = a.activity_type) (t : String) :
    (l.map f).find? (fun a => a.activity_type == t)
      = (l.find? (fun a => a.activity_type == t)).map f := by
  induction l with
  | nil => rfl
  | cons a rest ih =>
    simp only [List.map_cons, List.find?_cons]
    have hpa : ((f a).activity_type == t) = (a.activity_type == t) := by rw [hf a]
    rw [hpa]
    cases hat : (a.activity_type == t) with
    | true => rfl
    | false => simpa using ih

theorem bumpAccepted_levelOf (l : List AutonomyRow) (ty : Option String) (t : String) :
    ((bumpAccepted l ty).find? (fun a => a.activity_type == t)).map (fun a => a.level)
      = (l.find? (fun a => a.activity_type == t)).map (fun a => a.level) := by
  cases ty with
  | none => rfl
  | some t2 =>
    show ((l.map _).find? _).map _ = _
    rw [find?_map_level l
      (fun a => if a.activity_type == t2
        then { a with total_accepted := a.total_accepted + 1 } else a)
      (fun a => by dsimp only; split <;> rfl) t, Option.map_map]
    cases l.find? (fun a => a.activity_type == t) with
    | none => rfl
    | some a =>
      simp only [Option.map_some', Function.comp]
      congr 1
      dsimp only
      split <;> rfl

theorem bumpDismissed_levelOf (l : List AutonomyRow) (ty : Option String) (t : String) :
    ((bumpDismissed l ty).find? (fun a => a.activity_type == t)).map (fun a => a.level)
      = (l.find? (fun a => a.activity_type == t)).map (fun a => a.level) := by
  cases ty with
  | none => rfl
  | some t2 =>
    show ((l.map _).find? _).map _ = _
    rw [find?_map_level l
      (fun a => if a.activity_type == t2
        then { a with total_dismissed := a.total_dismissed + 1 } else a)
      (fun a => by dsimp only; split <;> rfl) t, Option.map_map]
    cases l.find? (fun a => a.activity_type == t) with
    | none => rfl
    | some a =>
      simp only [Option.map_some', Function.comp]
      congr 1
      dsimp only
      split <;> rfl

theorem clearAllData_levelOf (db : DB) (t : String) :
    levelOf (clearAllData db) t = levelOf db t := by
  rw [levelOf, levelOf]
  show ((db.autonomy.map _).find? _).map _ = _
  rw [find?_map_level db.autonomy
    (fun a => { a with total_accepted := 0, total_dismissed := 0 })
    (fun a => rfl) t, Option.map_map]
  cases db.autonomy.find? (fun a => a.activity_type == t) with
  | none => rfl
  | some a => rfl

theorem levelOf_applyOp (db : DB) (op : EngineOp) (hop : op.isSetLevel = false)
    (t : String) : levelOf (applyOp db op) t = levelOf db t := by
  cases op with
  | genSuggestions now =>
    show levelOf (generate_suggestions_core db (allCandidates db now) now).1 t = _
    have hauto : (generate_suggestions_core db (allCandidates db now) now).1.autonomy
        = db.autonomy := by
      rw [generate_suggestions_core]
      split
      · rfl
      · exact insertCandidates_autonomy db _
    rw [levelOf, levelOf, hauto]
  | acceptOp id now => exact bumpAccepted_levelOf db.autonomy _ t
  | dismissOp id now => exact bumpDismissed_levelOf db.autonomy _ t
  | sweepOp now => rfl
  | gcOp now => rfl
  | setLevelOp t2 lvl now => simp [EngineOp.isSetLevel] at hop
  | clearOp => exact clearAllData_levelOf db t
  | touchOp email name channel now =>
    show levelOf (upsertContact db email name channel now) t = _
    rw [levelOf, levelOf, upsertContact_autonomy]
  | replyScanOp => rfl

theorem setAutonomyLevel_levels (db : DB) (t lvl : String) (now : Nat) (db2 : DB)
    (h : setAutonomyLevel db t lvl now = some db2) :
    (∀ t2, t2 ≠ t → levelOf db2 t2 = levelOf db t2)
    ∧ levelOf db2 t = (levelOf db t).map (fun _ => lvl) := by
  rw [setAutonomyLevel] at h
  split at h
  · injection h with h2
    subst h2
    constructor
    · intro t2 ht2
      rw [levelOf, levelOf]
      show ((db.autonomy.map _).find? _).map _ = _
      rw [find?_map_level db.autonomy
        (fun a => if a.activity_type == t
          then { a with level := lvl, promoted_at := some (.instant now) } else a)
        (fun a => by dsimp only; split <;> rfl) t2, Option.map_map]
      cases hfa : db.autonomy.find? (fun a => a.activity_type == t2) with
      | none => rfl
      | some a =>
        have hp := List.find?_some hfa
        simp only [Option.map_some', Function.comp]
        congr 1
        have hat : (a.activity_type == t) = false := by
          rw [beq_iff_eq] at hp
          simp [hp, ht2]
        simp [hat]
    · rw [levelOf, levelOf]
      show ((db.autonomy.map _).find? _).map _ = _
      rw [find?_map_level db.autonomy
        (fun a => if a.activity_type == t
          then { a with level := lvl, promoted_at := some (.instant now) } else a)
        (fun a => by dsimp only; split <;> rfl) t, Option.map_map]
      cases hfa : db.autonomy.find? (fun a => a.activity_type == t) with
      | none => rfl
      | some a =>
        have hp := List.find?_some hfa
        simp only [Option.map_some', Function.comp]
        congr 1
        simp [hp]
  · cases h

theorem c8_counterexample :
    levelOf initDB "scheduling" = some "suggest"
    ∧ (setAutonomyLevel initDB "scheduling" "observe" 0).map
        (fun d => levelOf d "scheduling") = some (some "observe")
    ∧ levelRank "observe" < levelRank "suggest" := by decide

/-- C8 (amended): autonomy levels are changed only by an explicit
`set_autonomy_level` call — which sets any requested valid level, including a
strictly lower one, so the level is not guaranteed to move only forward —
while every other engine operation, including the full data reset, preserves
each type's level; the full reset zeroes both counters of every row while
preserving its level. -/
theorem c8_amended (db : DB) (ops : List EngineOp) (t : String)
    (h : ∀ op ∈ ops, op.isSetLevel = false) :
    levelOf (applyOps db ops) t = levelOf db t
    ∧ levelOf (clearAllData db) t = levelOf db t
    ∧ (∀ a ∈ (clearAllData db).autonomy, a.total_accepted = 0 ∧ a.total_dismissed = 0)
    ∧ (∀ lvl now db2, setAutonomyLevel db t lvl now = some db2 →
        levelOf db2 t = (levelOf db t).map (fun _ => lvl)
        ∧ ∀ t2, t2 ≠ t → levelOf db2 t2 = levelOf db t2) := by
  refine ⟨?_, clearAllData_levelOf db t, ?_, ?_⟩
  · induction ops generalizing db with
    | nil => rfl
    | cons op rest ih =>
      have h1 := levelOf_applyOp db op (h op (List.mem_cons_self _ _)) t
      have h2 := ih (applyOp db op) (fun o ho => h o (List.mem_cons_of_mem _ ho))
      exact h2.trans h1
  · intro a ha
    obtain ⟨a0, _, rfl⟩ := List.mem_map.mp ha
    exact ⟨rfl, rfl⟩
  · intro lvl now db2 hset
    have hs := setAutonomyLevel_levels db t lvl now db2 hset
    exact ⟨hs.2, hs.1⟩

theorem c8_amended_witness :
    levelOf (applyOps initDB [.acceptOp 1 0, .clearOp, .gcOp 5]) "email_reply"
      = levelOf initDB "email_reply"
    ∧ levelOf (clearAllData initDB) "email_reply" = levelOf initDB "email_reply" := by
  have h := c8_amended initDB [.acceptOp 1 0, .clearOp, .gcOp 5] "email_reply" (by decide)
  exact ⟨h.1, h.2.1⟩

theorem map_eq_self_of {α : Type} (l : List α) (f : α → α)
    (h : ∀ a ∈ l, f a = a) : l.map f = l := by
  induction l with
  | nil => rfl
  | cons a rest ih =>
    rw [List.map_cons, h a (List.mem_cons_self a rest),
      ih (fun x hx => h x (List.mem_cons_of_mem a hx))]

theorem allCandidates_stype (db : DB) (now : Nat) :
    ∀ s ∈ allCandidates db now, s.stype ∈ detectorTypes := by
  intro s hs
  rw [allCandidates] at hs
  rcases List.mem_append.mp hs with hs | hs
  · rcases List.mem_append.mp hs with hs | hs
    · rcases List.mem_append.mp hs with hs | hs
      · obtain ⟨e, _, rfl⟩ := List.mem_map.mp hs
        exact (by decide : ("reachout" : String) ∈ detectorTypes)
      · obtain ⟨e, _, rfl⟩ := List.mem_map.mp hs
        exact (by decide : ("respond" : String) ∈ detectorTypes)
    · obtain ⟨e, _, rfl⟩ := List.mem_map.mp hs
      exact (by decide : ("catch_up" : String) ∈ detectorTypes)
  · obtain ⟨e, _, rfl⟩ := List.mem_map.mp hs
    exact (by decide : ("schedule_meeting" : String) ∈ detectorTypes)

theorem bumpAccepted_seed_of_detector (ty : Option String)
    (hty : ∀ t2, ty = some t2 → t2 ∈ detectorTypes) :
    bumpAccepted seedAutonomy ty = seedAutonomy := by
  cases ty with
  | none => rfl
  | some t2 =>
    have ht2 := hty t2 rfl
    simp only [bumpAccepted]
    apply map_eq_self_of
    intro a ha
    have hne : (a.activity_type == t2) = false := by
      simp only [detectorTypes, List.mem_cons, List.not_mem_nil, or_false] at ht2
      simp only [seedAutonomy, List.mem_cons, List.not_mem_nil, or_false] at ha
      rcases ht2 with rfl | rfl | rfl | rfl <;>
        rcases ha with rfl | rfl | rfl | rfl <;> decide
    simp [hne]

theorem bumpDismissed_seed_of_detector (ty : Option String)
    (hty : ∀ t2, ty = some t2 → t2 ∈ detectorTypes) :
    bumpDismissed seedAutonomy ty = seedAutonomy := by
  cases ty with
  | none => rfl
  | some t2 =>
    have ht2 := hty t2 rfl
    simp only [bumpDismissed]
    apply map_eq_self_of
    intro a ha
    have hne : (a.activity_type == t2) = false := by
      simp only [detectorTypes, List.mem_cons, List.not_mem_nil, or_false] at ht2
      simp only [seedAutonomy, List.mem_cons, List.not_mem_nil, or_false] at ha
      rcases ht2 with rfl | rfl | rfl | rfl <;>
        rcases ha with rfl | rfl | rfl | rfl <;> decide
    simp [hne]

theorem bumped_type_is_detector (rows : List SuggestionRow) (i : Int)
    (upd : SuggestionRow → SuggestionRow) (hupd : ∀ s, (upd s).stype = s.stype)
    (h3 : ∀ s ∈ rows, s.stype ∈ detectorTypes) :
    ∀ t2, ((rows.map (fun s => if s.id == i then upd s else s)).find?
        (fun s => s.id == i)).map (fun s => s.stype) = some t2 → t2 ∈ detectorTypes := by
  intro t2 hfind
  rw [Option.map_eq_some'] at hfind
  obtain ⟨s0, hs0, hst⟩ := hfind
  have hs0m := List.mem_of_find?_eq_some hs0
  obtain ⟨s1, hs1, rfl⟩ := List.mem_map.mp hs0m
  have hstype : (if s1.id == i then upd s1 else s1).stype = s1.stype := by
    split
    · exact hupd s1
    · rfl
  rw [hstype] at hst
  rw [← hst]
  exact h3 s1 hs1

/-- C9: a suggestion type with no `autonomy_settings` row is treated as level
`suggest` and its candidates are not discarded by the observe gate; the four
detector type names are disjoint from the seeded activity types, so on a
freshly seeded table every detector candidate passes the gate, and the
accept/dismiss counter updates — keyed by the suggestion's type — match no
autonomy row and leave the seeded table unchanged. -/
theorem c9_default_level (db dbF : DB) (t : String) (c : SuggestionRow) (i : Int)
    (now : Nat)
    (h1 : db.autonomy.find? (fun a => a.activity_type == t) = none)
    (h2 : dbF.autonomy = seedAutonomy)
    (h3 : ∀ s ∈ dbF.suggestions, s.stype ∈ detectorTypes)
    (h4 : c.stype = t) :
    autonomyLevel db t = "suggest"
    ∧ observeGate db c = false
    ∧ (∀ ty ∈ detectorTypes, seedAutonomy.find? (fun a => a.activity_type == ty) = none)
    ∧ (∀ s ∈ allCandidates dbF now, autonomyLevel dbF s.stype = "suggest")
    ∧ (acceptSuggestion dbF i now).1.autonomy = seedAutonomy
    ∧ (dismissSuggestion dbF i now).autonomy = seedAutonomy := by
  have a1 : autonomyLevel db t = "suggest" := by
    rw [autonomyLevel, h1]
  refine ⟨a1, ?_, by decide, ?_, ?_, ?_⟩
  · rw [observeGate, h4, a1]
    rfl
  · intro s hs
    have hst := allCandidates_stype dbF now s hs
    rw [autonomyLevel, h2]
    simp only [detectorTypes, List.mem_cons, List.not_mem_nil, or_false] at hst
    rcases hst with h | h | h | h <;> rw [h] <;> decide
  · show bumpAccepted dbF.autonomy (((dbF.suggestions.map (fun s =>
        if s.id == i then { s with status := "accepted", acted_at := some (.instant now) }
        else s)).find? (fun s => s.id == i)).map (fun s => s.stype)) = seedAutonomy
    rw [h2]
    refine bumpAccepted_seed_of_detector _ ?_
    exact bumped_type_is_detector dbF.suggestions i _ (fun s => rfl) h3
  · show bumpDismissed dbF.autonomy (((dbF.suggestions.map (fun s =>
        if s.id == i then { s with status := "dismissed", acted_at := some (.instant now) }
        else s)).find? (fun s => s.id == i)).map (fun s => s.stype)) = seedAutonomy
    rw [h2]
    refine bumpDismissed_seed_of_detector _ ?_
    exact bumped_type_is_detector dbF.suggestions i _ (fun s => rfl) h3

/-- Store of C9's witness: no autonomy rows at all. -/
def exDb9 : DB := ⟨[], [], [], [], []⟩

/-- Freshly seeded store of C9's witness, holding one detector-typed
suggestion. -/
def exDbF9 : DB :=
  ⟨[], [], [], [⟨1, "reachout", some "a@x.com", 1, "pending", .instant 0, none, none⟩],
   seedAutonomy⟩

theorem c9_default_level_witness :
    autonomyLevel exDb9 "reachout" = "suggest"
    ∧ observeGate exDb9 (mkReachout 0 "q@x.com") = false
    ∧ (acceptSuggestion exDbF9 1 5).1.autonomy = seedAutonomy
    ∧ (dismissSuggestion exDbF9 1 5).autonomy = seedAutonomy := by
  have h := c9_default_level exDb9 exDbF9 "reachout" (mkReachout 0 "q@x.com") 1 5
    rfl rfl (by decide) rfl
  exact ⟨h.1, h.2.1, h.2.2.2.2.1, h.2.2.2.2.2⟩

/-- C10: `accept_suggestion` and `dismiss_suggestion` overwrite the row for
any existing id regardless of its current status — the update carries no
`status = 'pending'` guard — stamping `acted_at` with the current instant,
and `accept_suggestion` returns the row rather than rejecting it. -/
theorem c10_accept_dismiss_overwrite (db : DB) (id : Int) (now : Nat)
    (r : SuggestionRow) (hr : r ∈ db.suggestions) (hid : r.id = id) :
    ({ r with status := "accepted", acted_at := some (.instant now) } : SuggestionRow)
      ∈ (acceptSuggestion db id now).1.suggestions
    ∧ ({ r with status := "dismissed", acted_at := some (.instant now) } : SuggestionRow)
      ∈ (dismissSuggestion db id now).suggestions
    ∧ (acceptSuggestion db id now).2.isSome = true := by
  have hbeq : (r.id == id) = true := by simp [hid]
  refine ⟨?_, ?_, ?_⟩
  · show _ ∈ db.suggestions.map _
    refine List.mem_map.mpr ⟨r, hr, ?_⟩
    simp [hbeq]
  · show _ ∈ db.suggestions.map _
    refine List.mem_map.mpr ⟨r, hr, ?_⟩
    simp [hbeq]
  · show ((db.suggestions.map (fun s =>
      if s.id == id then { s with status := "accepted", acted_at := some (.instant now) }
      else s)).find? (fun s => s.id == id)).isSome = true
    rw [List.find?_isSome]
    refine ⟨_, List.mem_map.mpr ⟨r, hr, rfl⟩, ?_⟩
    simp [hbeq]

/-- Already-terminal suggestion of C10's witness. -/
def exRow10 : SuggestionRow :=
  ⟨1, "respond", some "a@x.com", 1, "expired", .instant 0, none, none⟩

/-- Store of C10's witness. -/
def exDb10 : DB := ⟨[], [], [], [exRow10], seedAutonomy⟩

theorem c10_accept_dismiss_overwrite_witness :
    ({ exRow10 with status := "accepted", acted_at := some (.instant 7) } : SuggestionRow)
      ∈ (acceptSuggestion exDb10 1 7).1.suggestions
    ∧ ({ exRow10 with status := "dismissed", acted_at := some (.instant 7) } : SuggestionRow)
      ∈ (dismissSuggestion exDb10 1 7).suggestions
    ∧ (acceptSuggestion exDb10 1 7).2.isSome = true := by
  have h := c10_accept_dismiss_overwrite exDb10 1 7 exRow10 (List.mem_cons_self _ _) rfl
  exact ⟨h.1, h.2.1, h.2.2⟩
